import Mathlib

/-!
Shallow embedding of the run script
src/main/resources/org/auscope/portal/server/scriptbuilder/templates/run_busselton.py.

The script is a linear Python program: it converts input data, builds a
mesh and domain through the external ANUGA library, sets initial and
boundary conditions, runs the evolve loop, and uploads result files to
cloud storage. We embed it as a function from its inputs (template
parameters, environment variables, and the return codes of the external
upload tool) to the trace of external calls it performs, in order. Library
calls are trace events carrying the arguments the script passes; values the
library produces (mesh statistics, timestepping statistics, timer readings)
are opaque, so prints of such values are recorded as print_solver_data
events tagged with the source expression. The two for loops over
domain.evolve only print per-step solver statistics, so each loop is
recorded as a single evolve event carrying the yieldstep, finaltime and
skip_initial_step arguments of the library call.
-/

namespace RunBusselton

/-- Template parameters substituted into the script at generation time
(lines 46, 47, 78 and 84 of the source). -/
structure TemplateParams where
  input_dataset : String
  name_stem : String
  base_scale : ℚ
  tide : ℚ

/-- Environment variables read by cloudUpload (lines 209 and 210). -/
structure Env where
  STORAGE_BUCKET : String
  STORAGE_BASE_KEY_PATH : String

/-- Runtime parameter v_cache, line 53. -/
def v_cache : Bool := false

/-- Runtime parameter v_verbose, line 54. -/
def v_verbose : Bool := true

/-- Scenario selector, line 59. -/
def scenario : String := "fixed_wave"

/-- Bounding polygon for the study area, lines 66 to 75. -/
def busselton_extent : List (ℤ × ℤ) :=
  [(357325, 6270510), (344635, 6267810), (314645, 6268400), (286811, 6277911),
   (286174, 6308019), (293089, 6341152), (344595, 6456235), (389463, 6441867),
   (392955, 6320400), (379095, 6288910)]

/-- UTM zone, line 77. -/
def zone : ℤ := 50

/-- The tsunami forcing function, line 167:
the_wave = lambda t: [(20*np.sin(t*np.pi/(60*10)))*np.exp(-t/600), 0, 0]. -/
noncomputable def the_wave (t : ℝ) : ℝ × ℝ × ℝ :=
  ((20 * Real.sin (t * Real.pi / (60 * 10))) * Real.exp (-t / 600), 0, 0)

/-- Boundary condition objects the script can construct through the ANUGA
library (lines 161, 164 and 168), carrying the arguments the script passes. -/
inductive BC where
  | Dirichlet_boundary (values : List ℚ)
  | Transmissive_stage_zero_momentum_boundary
  | Time_boundary (function : ℝ → ℝ × ℝ × ℝ)

/-- Mean water level boundary Bd, line 161. -/
def Bd (tide : ℚ) : BC := BC.Dirichlet_boundary [tide, 0, 0]

/-- Neutral boundary Bs, line 164. -/
def Bs : BC := BC.Transmissive_stage_zero_momentum_boundary

/-- Wave boundary Bw, line 168: anuga.Time_boundary driven by the_wave. -/
noncomputable def Bw : BC := BC.Time_boundary the_wave

/-- True exactly on Time_boundary values. -/
def BC.isTimeBoundary : BC → Bool
  | BC.Time_boundary _ => true
  | _ => false

/-- True exactly on Dirichlet_boundary values. -/
def BC.isDirichlet : BC → Bool
  | BC.Dirichlet_boundary _ => true
  | _ => false

/-- The boundary_tags argument of create_domain_from_regions,
lines 108 to 117. -/
def boundary_tags : List (String × List ℕ) :=
  [("land_sse", [0]), ("land_s", [1]), ("bottom", [2]), ("ocean_wsw", [3]),
   ("ocean_w", [4]), ("ocean_wnw", [5]), ("top", [6]), ("land_nne", [7]),
   ("land_ese", [8]), ("land_se", [9])]

/-- The argument of domain.set_boundary, lines 170 to 179. -/
noncomputable def boundary_assignment : List (String × BC) :=
  [("land_sse", Bs), ("land_s", Bs), ("bottom", Bs), ("ocean_wsw", Bw),
   ("ocean_w", Bw), ("ocean_wnw", Bw), ("top", Bs), ("land_nne", Bs),
   ("land_ese", Bs), ("land_se", Bs)]

/-- External calls the script performs, with the arguments it passes. -/
inductive Event where
  | nc2asc (dataset name_stem : String) (zone : ℤ)
  | asc2dem (filename : String)
  | dem2pts (filename : String)
  | create_domain_from_regions (bounding_polygon : List (ℤ × ℤ))
      (boundary_tags : List (String × List ℕ))
      (maximum_triangle_area : ℚ) (mesh_filename : String)
  | set_name (name : String)
  | set_datadir (dir : String)
  | set_minimum_storable_height (height : ℚ)
  | set_flow_algorithm (algorithm : String)
  | set_quantity (name : String) (value : ℚ)
  | set_quantity_from_file (name : String) (filename : String) (alpha : ℚ)
  | set_boundary (assignment : List (String × BC))
  | evolve (yieldstep finaltime : ℚ) (skip_initial_step : Bool)
  | subprocess_call (args : List String)
  | print_line (text : String)
  | print_solver_data (source_expression : String)

/-- True exactly on print_line events. -/
def Event.isPrintLine : Event → Bool
  | Event.print_line _ => true
  | _ => false

/-- The cloudUpload helper, lines 208 to 213: reads the two environment
variables, builds queryPath with the Python replace of double slashes,
invokes the external cloud tool through subprocess.call, and prints the
path and the return code. retcode_of gives the return code the external
tool produces for a given argument vector. -/
def cloudUpload (env : Env) (retcode_of : List String → ℤ)
    (inFilePath cloudKey : String) : List Event :=
  let cloudBucket := env.STORAGE_BUCKET
  let cloudDir := env.STORAGE_BASE_KEY_PATH
  let queryPath := (cloudBucket ++ "/" ++ cloudDir ++ "/" ++ cloudKey).replace "//" "/"
  let args := ["cloud", "upload", cloudKey, inFilePath, "--set-acl=public-read"]
  let retcode := retcode_of args
  [Event.subprocess_call args,
   Event.print_line ("cloudUpload: " ++ inFilePath ++ " to " ++ queryPath
     ++ " returned " ++ toString retcode)]

/-- The whole script, lines 46 to 240, as the trace of external calls it
performs in order. The local bindings mirror lines 46 to 48, 78, 79, 84 and
141 of the source; Bd, Bs, Bw and boundary_assignment are the top level
definitions above. -/
noncomputable def script (p : TemplateParams) (env : Env)
    (retcode_of : List String → ℤ) : List Event :=
  let dataset := p.input_dataset
  let name_stem := p.name_stem
  let meshname := name_stem ++ ".msh"
  let base_scale := p.base_scale
  let default_res := 25 * base_scale
  let v_tide := p.tide
  let tide := v_tide
  [Event.nc2asc dataset name_stem zone,
   Event.asc2dem (name_stem ++ ".asc"),
   Event.dem2pts (name_stem ++ ".dem"),
   Event.create_domain_from_regions busselton_extent boundary_tags
     default_res meshname,
   Event.print_solver_data "len(domain)",
   Event.print_solver_data "domain.get_extent()",
   Event.print_solver_data "domain.statistics()",
   Event.set_name ("busselton_" ++ scenario),
   Event.set_datadir ".",
   Event.set_minimum_storable_height 0.01,
   Event.set_flow_algorithm "tsunami",
   Event.set_quantity "stage" tide,
   Event.set_quantity "friction" 0.0,
   Event.set_quantity_from_file "elevation" (name_stem ++ ".pts") 0.1,
   Event.print_solver_data "domain.get_boundary_tags()",
   Event.set_boundary boundary_assignment,
   Event.evolve (2 * 60) 5000 false,
   Event.evolve (60 * 0.5) 7000 true,
   Event.print_line "Uploading result files"]
  ++ cloudUpload env retcode_of dataset "raw_elevation"
  ++ cloudUpload env retcode_of (name_stem ++ "_UTM.nc") (name_stem ++ "_UTM.nc")
  ++ cloudUpload env retcode_of (name_stem ++ ".asc") (name_stem ++ ".asc")
  ++ cloudUpload env retcode_of (name_stem ++ ".prj") (name_stem ++ ".prj")
  ++ cloudUpload env retcode_of (name_stem ++ ".dem") (name_stem ++ ".dem")
  ++ cloudUpload env retcode_of (name_stem ++ ".pts") (name_stem ++ ".pts")
  ++ cloudUpload env retcode_of (name_stem ++ ".msh") (name_stem ++ ".msh")
  ++ cloudUpload env retcode_of (name_stem ++ "_fixed_wave.sww")
       (name_stem ++ "_fixed_wave.sww")
  ++ [Event.print_line "If you wish to view your output - please look at anuga-viewer here: http://sourceforge.net/projects/anuga/files/",
      Event.print_solver_data "timer statistics, lines 231 to 240"]

/-- The argument vectors of all subprocess calls in a trace, in order. -/
def subprocessCalls (trace : List Event) : List (List String) :=
  trace.filterMap fun e =>
    match e with
    | Event.subprocess_call args => some args
    | _ => none

/-- The (inFilePath, cloudKey) pairs of all cloud upload subprocess calls
in a trace, in order. -/
def cloudUploadCalls (trace : List Event) : List (String × String) :=
  trace.filterMap fun e =>
    match e with
    | Event.subprocess_call ["cloud", "upload", cloudKey, inFilePath, "--set-acl=public-read"] =>
        some (inFilePath, cloudKey)
    | _ => none

/-- The suffixes appended to name_stem in the upload block, lines 221
to 227. -/
def uploadSuffixes : List String :=
  ["_UTM.nc", ".asc", ".prj", ".dem", ".pts", ".msh", "_fixed_wave.sww"]

/-- The eight (inFilePath, cloudKey) pairs named in the upload block,
lines 220 to 227. -/
def expectedUploads (p : TemplateParams) : List (String × String) :=
  (p.input_dataset, "raw_elevation")
    :: uploadSuffixes.map (fun s => (p.name_stem ++ s, p.name_stem ++ s))

/-- Pipeline stages of the script named by the specification. -/
inductive Stage where
  | conversion
  | meshDomain
  | conditions
  | evolveLoop
  | upload
deriving DecidableEq

/-- The pipeline stage an event belongs to, when it belongs to one. -/
def stageOf : Event → Option Stage
  | Event.nc2asc _ _ _ => some Stage.conversion
  | Event.asc2dem _ => some Stage.conversion
  | Event.dem2pts _ => some Stage.conversion
  | Event.create_domain_from_regions _ _ _ _ => some Stage.meshDomain
  | Event.set_quantity _ _ => some Stage.conditions
  | Event.set_quantity_from_file _ _ _ => some Stage.conditions
  | Event.set_boundary _ => some Stage.conditions
  | Event.evolve _ _ _ => some Stage.evolveLoop
  | Event.subprocess_call _ => some Stage.upload
  | _ => none

/-- The data format conversion calls of a trace, in order. -/
def conversionCalls (trace : List Event) : List Event :=
  trace.filterMap fun e =>
    match e with
    | Event.nc2asc d n z => some (Event.nc2asc d n z)
    | Event.asc2dem f => some (Event.asc2dem f)
    | Event.dem2pts f => some (Event.dem2pts f)
    | _ => none

/-- The (name, value) pairs of all constant set_quantity calls of a trace,
in order. -/
def setQuantityConsts (trace : List Event) : List (String × ℚ) :=
  trace.filterMap fun e =>
    match e with
    | Event.set_quantity n v => some (n, v)
    | _ => none

/-- The maximum_triangle_area arguments of all create_domain_from_regions
calls of a trace, in order. -/
def domainCreationAreas (trace : List Event) : List ℚ :=
  trace.filterMap fun e =>
    match e with
    | Event.create_domain_from_regions _ _ area _ => some area
    | _ => none

/-- The arguments of all set_name calls of a trace, in order. -/
def setNames (trace : List Event) : List String :=
  trace.filterMap fun e =>
    match e with
    | Event.set_name n => some n
    | _ => none

/-- The arguments of all set_boundary calls of a trace, in order. -/
def setBoundaries (trace : List Event) : List (List (String × BC)) :=
  trace.filterMap fun e =>
    match e with
    | Event.set_boundary m => some m
    | _ => none

/-- A return code assignment under which the external upload tool always
succeeds. -/
def rc0 : List String → ℤ := fun _ => 0

/-- Concrete template parameters for a pair of runs compared below. -/
def pC3 : TemplateParams := ⟨"input.nc", "busselton", 1, 0⟩

/-- One concrete environment. -/
def envA : Env := ⟨"bucketA", "baseA"⟩

/-- Another concrete environment, differing from envA in both variables. -/
def envB : Env := ⟨"bucketB", "baseB"⟩

/-- The eight argument vectors the upload subprocess receives in a run with
template parameters pC3, whatever the environment variables hold. -/
def pC3calls : List (List String) :=
  [["cloud", "upload", "raw_elevation", "input.nc", "--set-acl=public-read"],
   ["cloud", "upload", "busselton_UTM.nc", "busselton_UTM.nc", "--set-acl=public-read"],
   ["cloud", "upload", "busselton.asc", "busselton.asc", "--set-acl=public-read"],
   ["cloud", "upload", "busselton.prj", "busselton.prj", "--set-acl=public-read"],
   ["cloud", "upload", "busselton.dem", "busselton.dem", "--set-acl=public-read"],
   ["cloud", "upload", "busselton.pts", "busselton.pts", "--set-acl=public-read"],
   ["cloud", "upload", "busselton.msh", "busselton.msh", "--set-acl=public-read"],
   ["cloud", "upload", "busselton_fixed_wave.sww", "busselton_fixed_wave.sww", "--set-acl=public-read"]]

/-- Two strings with equal character data are equal. -/
theorem string_eq_of_data_eq {a b : String} (h : a.data = b.data) : a = b := by
  cases a
  cases b
  exact congrArg String.mk h

/-- String append is left cancellative. -/
theorem string_append_left_cancel {s a b : String} (h : s ++ a = s ++ b) :
    a = b := by
  have hd : s.data ++ a.data = s.data ++ b.data := by
    rw [← String.data_append, ← String.data_append, h]
  exact string_eq_of_data_eq (List.append_cancel_left hd)

/-- String append is right cancellative. -/
theorem string_append_right_cancel {s a b : String} (h : a ++ s = b ++ s) :
    a = b := by
  have hd : a.data ++ s.data = b.data ++ s.data := by
    rw [← String.data_append, ← String.data_append, h]
  exact string_eq_of_data_eq (List.append_cancel_right hd)

/-- A string whose data does not end with the data of a cannot be of the
form s ++ a. -/
theorem string_ne_of_data_not_suffix {a t : String} (s : String)
    (h : ¬ a.data <:+ t.data) : s ++ a ≠ t := by
  intro hc
  exact h ⟨s.data, by rw [← String.data_append, hc]⟩

/-- The eight cloud keys of the upload block are pairwise distinct, for
every value of the template parameters. -/
theorem expectedUploads_keys_nodup (p : TemplateParams) :
    ((expectedUploads p).map Prod.snd).Nodup := by
  have hrw : (expectedUploads p).map Prod.snd
      = "raw_elevation" :: uploadSuffixes.map (fun s => p.name_stem ++ s) := rfl
  rw [hrw, List.nodup_cons]
  constructor
  · intro hmem
    rcases List.mem_map.mp hmem with ⟨s, hs, heq⟩
    simp only [uploadSuffixes, List.mem_cons, List.not_mem_nil, or_false] at hs
    rcases hs with rfl | rfl | rfl | rfl | rfl | rfl | rfl
    · exact string_ne_of_data_not_suffix p.name_stem (by decide) heq
    · exact string_ne_of_data_not_suffix p.name_stem (by decide) heq
    · exact string_ne_of_data_not_suffix p.name_stem (by decide) heq
    · exact string_ne_of_data_not_suffix p.name_stem (by decide) heq
    · exact string_ne_of_data_not_suffix p.name_stem (by decide) heq
    · exact string_ne_of_data_not_suffix p.name_stem (by decide) heq
    · exact string_ne_of_data_not_suffix p.name_stem (by decide) heq
  · refine List.Nodup.map ?_ (by decide)
    intro a b hab
    exact string_append_left_cancel hab

/-- C1: for every time t, the_wave t has stage component
20 * sin(t * pi / 600) * exp(-t / 600) and zero momentum components; the
period written as 60 * 10 in the source equals 600. -/
theorem C1_the_wave_formula (t : ℝ) :
    the_wave t = (20 * Real.sin (t * Real.pi / 600) * Real.exp (-t / 600), 0, 0)
    ∧ (60 * 10 : ℝ) = 600 := by
  constructor
  · norm_num [the_wave]
  · norm_num

/-- C2: the upload step performs exactly one cloud upload subprocess call
for each of the eight named files, in the order of the source, and no named
file is uploaded twice: the cloud keys are pairwise distinct, hence so are
the (inFilePath, cloudKey) pairs of the eight calls. -/
theorem C2_upload_once_per_file (p : TemplateParams) (env : Env)
    (rc : List String → ℤ) :
    cloudUploadCalls (script p env rc) = expectedUploads p
    ∧ ((expectedUploads p).map Prod.snd).Nodup
    ∧ (expectedUploads p).Nodup :=
  ⟨rfl, expectedUploads_keys_nodup p,
    (expectedUploads_keys_nodup p).of_map Prod.snd⟩

/-- C3 counterexample: two runs that differ only in STORAGE_BUCKET and
STORAGE_BASE_KEY_PATH invoke the upload subprocess with exactly the same
argument vectors, contrary to the claim that the destination arguments
would differ. -/
theorem C3_counterexample :
    (envA.STORAGE_BUCKET == envB.STORAGE_BUCKET) = false
    ∧ (envA.STORAGE_BASE_KEY_PATH == envB.STORAGE_BASE_KEY_PATH) = false
    ∧ subprocessCalls (script pC3 envA rc0) = pC3calls
    ∧ subprocessCalls (script pC3 envB rc0) = pC3calls
    ∧ subprocessCalls (script pC3 envA rc0) = subprocessCalls (script pC3 envB rc0) := by
  have h1 : subprocessCalls (script pC3 envA rc0) = pC3calls := rfl
  have h2 : subprocessCalls (script pC3 envB rc0) = pC3calls := rfl
  exact ⟨by decide, by decide, h1, h2, h1.trans h2.symm⟩

set_option maxHeartbeats 1000000 in
/-- C3 amended: the values of STORAGE_BUCKET and STORAGE_BASE_KEY_PATH
flow only into printed messages: two runs that differ only in these
environment variables invoke the upload subprocess with identical argument
vectors, and their traces agree on every event except print_line events. -/
theorem C3_env_only_reaches_prints (p : TemplateParams) (env env' : Env)
    (rc : List String → ℤ) :
    subprocessCalls (script p env rc) = subprocessCalls (script p env' rc)
    ∧ (script p env rc).filter (fun e => ! e.isPrintLine)
        = (script p env' rc).filter (fun e => ! e.isPrintLine) :=
  ⟨rfl, rfl⟩

set_option maxHeartbeats 1000000 in
/-- C4: return codes of the upload subprocess reach only print_line events:
for any two assignments of return codes, including non-zero ones, the
traces agree on every non-print event, the eight upload calls are all still
attempted, and none is retried (the call list is exactly the eight expected
calls, each once). -/
theorem C4_no_error_handling (p : TemplateParams) (env : Env)
    (rc rc' : List String → ℤ) :
    (script p env rc).filter (fun e => ! e.isPrintLine)
        = (script p env rc').filter (fun e => ! e.isPrintLine)
    ∧ cloudUploadCalls (script p env rc) = expectedUploads p :=
  ⟨rfl, rfl⟩

/-- C5: the pipeline stages occur as contiguous blocks in the fixed order
conversion, mesh and domain creation, initial and boundary conditions,
evolve loop, upload, and within the conversion stage the calls are nc2asc,
then asc2dem, then dem2pts, each exactly once. -/
theorem C5_pipeline_order (p : TemplateParams) (env : Env)
    (rc : List String → ℤ) :
    (script p env rc).filterMap stageOf
      = [Stage.conversion, Stage.conversion, Stage.conversion,
         Stage.meshDomain,
         Stage.conditions, Stage.conditions, Stage.conditions, Stage.conditions,
         Stage.evolveLoop, Stage.evolveLoop,
         Stage.upload, Stage.upload, Stage.upload, Stage.upload,
         Stage.upload, Stage.upload, Stage.upload, Stage.upload]
    ∧ conversionCalls (script p env rc)
      = [Event.nc2asc p.input_dataset p.name_stem zone,
         Event.asc2dem (p.name_stem ++ ".asc"),
         Event.dem2pts (p.name_stem ++ ".dem")] :=
  ⟨rfl, rfl⟩

/-- C6: the constant set_quantity calls of the script are exactly stage
with the tide template parameter and friction with 0.0, in that order,
0.0 equals 0, and the same tide value is the stage component of the
Dirichlet mean water level boundary Bd = [tide, 0, 0]. -/
theorem C6_tide_initial_conditions (p : TemplateParams) (env : Env)
    (rc : List String → ℤ) :
    setQuantityConsts (script p env rc) = [("stage", p.tide), ("friction", 0.0)]
    ∧ (0.0 : ℚ) = 0
    ∧ Bd p.tide = BC.Dirichlet_boundary [p.tide, 0, 0] :=
  ⟨rfl, by norm_num, rfl⟩

/-- C7: the script performs exactly one set_boundary call, whose argument
assigns the Time_boundary Bw driven by the_wave exactly to the three ocean
tags and the transmissive zero momentum boundary Bs to the seven other
tags. -/
theorem C7_wave_on_ocean_tags (p : TemplateParams) (env : Env)
    (rc : List String → ℤ) :
    setBoundaries (script p env rc) = [boundary_assignment]
    ∧ boundary_assignment.filter (fun x => x.2.isTimeBoundary)
        = [("ocean_wsw", Bw), ("ocean_w", Bw), ("ocean_wnw", Bw)]
    ∧ boundary_assignment.filter (fun x => ! x.2.isTimeBoundary)
        = [("land_sse", Bs), ("land_s", Bs), ("bottom", Bs), ("top", Bs),
           ("land_nne", Bs), ("land_ese", Bs), ("land_se", Bs)]
    ∧ Bw = BC.Time_boundary the_wave
    ∧ Bs = BC.Transmissive_stage_zero_momentum_boundary :=
  ⟨rfl, rfl, rfl, rfl, rfl⟩

/-- C8: the maximum_triangle_area the script passes to
create_domain_from_regions is exactly 25 times the base_scale template
parameter, and that call is performed exactly once. -/
theorem C8_background_resolution (p : TemplateParams) (env : Env)
    (rc : List String → ℤ) :
    domainCreationAreas (script p env rc) = [25 * p.base_scale] := rfl

/-- C9: Bd is the Dirichlet boundary [tide, 0, 0], yet the boundary map
covers the ten tags with values Bs and Bw only, and none of its values is
a Dirichlet boundary, so Bd is never assigned to any tag. -/
theorem C9_Bd_never_assigned (t : ℚ) :
    Bd t = BC.Dirichlet_boundary [t, 0, 0]
    ∧ (Bd t).isDirichlet = true
    ∧ boundary_assignment.map Prod.fst
        = ["land_sse", "land_s", "bottom", "ocean_wsw", "ocean_w", "ocean_wnw",
           "top", "land_nne", "land_ese", "land_se"]
    ∧ boundary_assignment.map Prod.snd = [Bs, Bs, Bs, Bw, Bw, Bw, Bs, Bs, Bs, Bs]
    ∧ (boundary_assignment.map Prod.snd).all (fun b => ! b.isDirichlet) = true :=
  ⟨rfl, rfl, rfl, rfl, rfl⟩

/-- C10: the simulation output name is the fixed string
busselton_fixed_wave independent of name_stem, the last upload call names
the file name_stem ++ "_fixed_wave.sww", and that path equals the sww file
the simulation produces exactly when name_stem is busselton. -/
theorem C10_output_name_mismatch (p : TemplateParams) (env : Env)
    (rc : List String → ℤ) :
    setNames (script p env rc) = ["busselton_" ++ scenario]
    ∧ "busselton_" ++ scenario = "busselton_fixed_wave"
    ∧ (cloudUploadCalls (script p env rc)).getLast?
        = some (p.name_stem ++ "_fixed_wave.sww", p.name_stem ++ "_fixed_wave.sww")
    ∧ (p.name_stem ++ "_fixed_wave.sww" = "busselton_fixed_wave" ++ ".sww"
        ↔ p.name_stem = "busselton") := by
  refine ⟨rfl, rfl, rfl, ?_, ?_⟩
  · intro h
    have h2 : p.name_stem ++ "_fixed_wave.sww" = "busselton" ++ "_fixed_wave.sww" :=
      h.trans (show "busselton_fixed_wave" ++ ".sww" = "busselton" ++ "_fixed_wave.sww" from rfl)
    exact string_append_right_cancel h2
  · intro h
    rw [h]
    rfl

end RunBusselton
